import Mathlib

/-!
Verification of the gateway / circuit-breaker / event-pipeline logic of the
microservices shopping-list application (API gateway `APIGateway`, workers
`consumer_analytics` / `consumer_notification`, user/list service `server.js`,
shared `rabbitmq` module).

Shallow embedding conventions:
* JS `Date.now()` timestamps are `Nat` milliseconds, passed explicitly.
* The `Map` `this.circuitBreakers` is a function `String → Option Breaker`.
* JS numbers in price arithmetic are exact rationals `ℚ` (the concrete inputs
  appearing in the spec are exactly representable and IEEE-exact).
* Fallible operations return `Option` / `Except`; HTTP/AMQP side effects are
  reified as values (responses, traces of steps, ack/nack actions).
-/

namespace Shopping

/-- Per-service circuit-breaker record, as stored in `this.circuitBreakers`:
`{ failures, isOpen, lastFailure }` (gateway code in `consumer_notification.js`,
`APIGateway`). -/
structure Breaker where
  failures : Nat
  isOpen : Bool
  lastFailure : Nat
  deriving DecidableEq, Repr

/-- The `this.circuitBreakers` map: service name to breaker record. -/
def Breakers : Type := String → Option Breaker

/-- Fresh gateway: no breaker entries. -/
def Breakers.empty : Breakers := fun _ => none

/-- JS `this.circuitBreakers.set(name, breaker)`. -/
def Breakers.set (m : Breakers) (name : String) (b : Breaker) : Breakers :=
  fun n => if n = name then some b else m n

/-- Defaulted read `this.circuitBreakers.get(name) || { failures: 0, isOpen: false, lastFailure: 0 }`
(the defaulted read used by `isCircuitOpen`; `recordFailure` uses the same
default and immediately overwrites `lastFailure`). -/
def Breakers.getD0 (m : Breakers) (name : String) : Breaker :=
  (m name).getD ⟨0, false, 0⟩

/-- Source `APIGateway.isCircuitOpen(serviceName)`: returns the boolean answer and the
updated map (the auto-recovery branch mutates the stored breaker). Mirrors:
`if (breaker.isOpen && Date.now() - breaker.lastFailure < 300000) return true;`
then `if (breaker.isOpen) { breaker.isOpen = false; breaker.failures = 0; set }`
then `return false`. -/
def isCircuitOpen (m : Breakers) (name : String) (now : Nat) : Bool × Breakers :=
  let breaker := m.getD0 name
  if breaker.isOpen = true ∧ now - breaker.lastFailure < 300000 then
    (true, m)
  else if breaker.isOpen = true then
    (false, m.set name { breaker with isOpen := false, failures := 0 })
  else
    (false, m)

/-- Source `APIGateway.recordFailure(serviceName)`: increment the failure count, stamp
`lastFailure = Date.now()`, and open the breaker once `failures >= 3`. -/
def recordFailure (m : Breakers) (name : String) (now : Nat) : Breakers :=
  let b0 := m.getD0 name
  let b1 : Breaker := { b0 with failures := b0.failures + 1, lastFailure := now }
  let b2 : Breaker := if 3 ≤ b1.failures then { b1 with isOpen := true } else b1
  m.set name b2

/-- Source `APIGateway.resetCircuitBreaker(serviceName)`: if an entry exists, zero its
failure count and clear the open flag; otherwise do nothing. -/
def resetCircuitBreaker (m : Breakers) (name : String) : Breakers :=
  match m name with
  | none => m
  | some b => m.set name { b with failures := 0, isOpen := false }

/-- A sequence of `isCircuitOpen` queries at the given times, threading the
(possibly mutated) breaker map; returns the list of answers and the final map. -/
def runQueries (m : Breakers) (S : String) : List Nat → List Bool × Breakers
  | [] => ([], m)
  | t :: ts =>
    let r := isCircuitOpen m S t
    let rest := runQueries r.2 S ts
    (r.1 :: rest.1, rest.2)

theorem Breakers.set_self (m : Breakers) (name : String) (b : Breaker) :
    (m.set name b) name = some b := by
  simp [Breakers.set]

theorem recordFailure_lookup (m : Breakers) (S : String) (t : Nat) :
    (recordFailure m S t) S =
      some (if 3 ≤ (m.getD0 S).failures + 1 then
              ⟨(m.getD0 S).failures + 1, true, t⟩
            else
              ⟨(m.getD0 S).failures + 1, (m.getD0 S).isOpen, t⟩) := by
  unfold recordFailure
  rw [Breakers.set_self]

/-- While a breaker is open and the query time is within the cooldown window,
a query answers `true` and leaves the map untouched. -/
theorem isCircuitOpen_open_within (m : Breakers) (S : String) (now : Nat)
    (hOpen : (m.getD0 S).isOpen = true)
    (hWin : now - (m.getD0 S).lastFailure < 300000) :
    isCircuitOpen m S now = (true, m) := by
  unfold isCircuitOpen
  rw [if_pos ⟨hOpen, hWin⟩]

theorem three_failures_lookup (m : Breakers) (S : String)
    (h0 : (m.getD0 S).failures = 0) (t1 t2 t3 : Nat) :
    (recordFailure (recordFailure (recordFailure m S t1) S t2) S t3) S =
      some ⟨3, true, t3⟩ := by
  have h1 : (recordFailure m S t1) S =
      some ⟨1, (m.getD0 S).isOpen, t1⟩ := by
    rw [recordFailure_lookup, h0]
    simp
  have hg1 : (recordFailure m S t1).getD0 S = ⟨1, (m.getD0 S).isOpen, t1⟩ := by
    simp [Breakers.getD0, h1]
  have h2 : (recordFailure (recordFailure m S t1) S t2) S =
      some ⟨2, (m.getD0 S).isOpen, t2⟩ := by
    rw [recordFailure_lookup, hg1]
    simp
  have hg2 : (recordFailure (recordFailure m S t1) S t2).getD0 S =
      ⟨2, (m.getD0 S).isOpen, t2⟩ := by
    simp [Breakers.getD0, h2]
  rw [recordFailure_lookup, hg2]
  simp

theorem runQueries_open_window (S : String) (t3 : Nat) (m : Breakers)
    (hm : m S = some ⟨3, true, t3⟩) (qs : List Nat)
    (hq : ∀ q ∈ qs, q - t3 < 300000) :
    runQueries m S qs = (qs.map (fun _ => true), m) := by
  induction qs with
  | nil => rfl
  | cons q qs ih =>
    have hg : m.getD0 S = ⟨3, true, t3⟩ := by simp [Breakers.getD0, hm]
    have hstep : isCircuitOpen m S q = (true, m) := by
      apply isCircuitOpen_open_within
      · rw [hg]
      · rw [hg]; exact hq q (List.mem_cons_self q qs)
    have ih' := ih (fun x hx => hq x (List.mem_cons_of_mem q hx))
    simp [runQueries, hstep, ih']

/-- C1: starting from a breaker state with zero failures for service `S`, after
exactly 3 consecutive `recordFailure(S)` calls (no intervening success),
`isOpen(S)` returns true, and every subsequent query strictly less than
300000 ms after the last recorded failure also returns true, the open state
being preserved throughout the cooldown window. -/
theorem C1_three_failures_open_holds_through_cooldown
    (m : Breakers) (S : String) (h0 : (m.getD0 S).failures = 0)
    (t1 t2 t3 : Nat) (qs : List Nat)
    (hq : ∀ q ∈ qs, q - t3 < 300000) :
    (runQueries (recordFailure (recordFailure (recordFailure m S t1) S t2) S t3)
        S qs).1 = qs.map (fun _ => true) ∧
    (runQueries (recordFailure (recordFailure (recordFailure m S t1) S t2) S t3)
        S qs).2 =
      recordFailure (recordFailure (recordFailure m S t1) S t2) S t3 := by
  have h3 := three_failures_lookup m S h0 t1 t2 t3
  have := runQueries_open_window S t3 _ h3 qs hq
  constructor
  · rw [this]
  · rw [this]

theorem C1_witness :
    (Breakers.empty.getD0 "user-service").failures = 0 ∧
    (∀ q ∈ [2, 150000, 300001], q - 2 < 300000) ∧
    (runQueries (recordFailure (recordFailure
        (recordFailure Breakers.empty "user-service" 0) "user-service" 1)
        "user-service" 2) "user-service" [2, 150000, 300001]).1 =
      [true, true, true] := by
  refine ⟨by decide, by decide, ?_⟩
  have h := C1_three_failures_open_holds_through_cooldown Breakers.empty
    "user-service" (by decide) 0 1 2 [2, 150000, 300001] (by decide)
  exact h.1

/-- C2 fails as stated: with a CLOSED breaker holding a nonzero failure count
(here 1 failure recorded at time 0) and the cooldown fully elapsed
(query at 300000 ms), `isOpen` does return false, but the failure count is NOT
reset to zero — the reset branch runs only when the breaker is open. -/
theorem C2_counterexample :
    (isCircuitOpen (Breakers.empty.set "user-service" ⟨1, false, 0⟩)
        "user-service" 300000).1 = false ∧
    ((isCircuitOpen (Breakers.empty.set "user-service" ⟨1, false, 0⟩)
        "user-service" 300000).2.getD0 "user-service").failures = 1 := by
  constructor <;> rfl

/-- C2 (amended): for every breaker state that is OPEN for `S`, once at least
300000 ms have elapsed since `S`'s last recorded failure, the next `isOpen(S)`
query returns false and resets `S`'s failure count to zero (and clears the
open flag). -/
theorem C2_open_breaker_auto_recovers
    (m : Breakers) (S : String) (now : Nat)
    (hOpen : (m.getD0 S).isOpen = true)
    (hElapsed : 300000 ≤ now - (m.getD0 S).lastFailure) :
    (isCircuitOpen m S now).1 = false ∧
    ((isCircuitOpen m S now).2.getD0 S).failures = 0 ∧
    ((isCircuitOpen m S now).2.getD0 S).isOpen = false := by
  have hnot : ¬ ((m.getD0 S).isOpen = true ∧
      now - (m.getD0 S).lastFailure < 300000) := by
    rintro ⟨-, hlt⟩
    exact absurd hElapsed (not_le.mpr hlt)
  unfold isCircuitOpen
  rw [if_neg hnot, if_pos hOpen]
  refine ⟨rfl, ?_, ?_⟩ <;> simp [Breakers.getD0, Breakers.set_self]

theorem C2_witness :
    ((Breakers.empty.set "user-service" ⟨3, true, 0⟩).getD0
        "user-service").isOpen = true ∧
    300000 ≤ (300000 : Nat) - ((Breakers.empty.set "user-service"
        ⟨3, true, 0⟩).getD0 "user-service").lastFailure ∧
    (isCircuitOpen (Breakers.empty.set "user-service" ⟨3, true, 0⟩)
        "user-service" 300000).1 = false ∧
    ((isCircuitOpen (Breakers.empty.set "user-service" ⟨3, true, 0⟩)
        "user-service" 300000).2.getD0 "user-service").failures = 0 := by
  refine ⟨by decide, by decide, ?_⟩
  have h := C2_open_breaker_auto_recovers
    (Breakers.empty.set "user-service" ⟨3, true, 0⟩) "user-service" 300000
    (by decide) (by decide)
  exact ⟨h.1, h.2.1⟩

theorem resetCircuitBreaker_zeroes (m : Breakers) (S : String) :
    ((resetCircuitBreaker m S).getD0 S).failures = 0 ∧
    ((resetCircuitBreaker m S).getD0 S).isOpen = false := by
  unfold resetCircuitBreaker
  match h : m S with
  | none => simp [Breakers.getD0, h]
  | some b => simp [Breakers.getD0, Breakers.set_self]

/-- C3: a single recorded success (`resetCircuitBreaker`) for service `S`, in
any breaker state whatsoever, leaves `S` with failure count zero and the open
flag cleared. -/
theorem C3_success_resets_breaker (m : Breakers) (S : String) :
    ((resetCircuitBreaker m S).getD0 S).failures = 0 ∧
    ((resetCircuitBreaker m S).getD0 S).isOpen = false :=
  resetCircuitBreaker_zeroes m S

/-! ## Gateway proxy (`APIGateway.proxyRequest`) -/

/-- Modelled from the spec: the shared `serviceRegistry` module is not among
the sources; per §4.1 it is a directory mapping a service name to its network
location, with `discover(name)` returning the descriptor or failing with
`ServiceNotFoundError` when the name is unknown.  Modelled as an association
list of (name, base URL). -/
def Registry : Type := List (String × String)

/-- Modelled from the spec: `Registry.discover(name)` — the stored location,
or `none` (the thrown `ServiceNotFoundError`) when the name is unknown. -/
def discover (reg : Registry) (name : String) : Option String :=
  reg.lookup name

/-- Names of the registered services (`Object.keys(availableServices)` in the
service-not-found response). -/
def registryNames (reg : Registry) : List String :=
  reg.map (fun p => p.1)

/-- Outcome of the single downstream `axios(config)` call attempted by the
proxy, as seen through `validateStatus: status < 500`: a response with some
status and body, a refused connection (`ECONNREFUSED`), the 10s timeout
(`ETIMEDOUT`), or some other request error without a response. -/
inductive DownstreamOutcome where
  | response (status : Nat) (data : String)
  | connRefused
  | timedOut
  | otherFailure (msg : String)
  deriving DecidableEq, Repr

/-- Response body sent back by the gateway.  Each constructor mirrors one JSON
object shape built by `proxyRequest` (or the verbatim downstream body). -/
inductive GBody where
  /-- JS object `\x7b success: false, message \x7d` for a tripped breaker. -/
  | circuitOpenBody (message : String)
  /-- JS object with fields message, service, availableServices. -/
  | notFoundBody (message : String) (service : String) (available : List String)
  /-- JS object with fields message, service, error (connectivity failure). -/
  | unavailableBody (message : String) (service : String) (errCode : String)
  /-- Downstream `response.data` forwarded verbatim. -/
  | passthroughBody (data : String)
  /-- JS object for an unexpected gateway error (message, service, error). -/
  | internalBody (errMsg : String)
  deriving DecidableEq, Repr

/-- Status and body of the gateway's reply to the caller. -/
structure GatewayResponse where
  status : Nat
  body : GBody
  deriving DecidableEq, Repr

/-- Result of one `proxyRequest` invocation: the HTTP reply, the breaker map
afterwards, and whether a downstream call was attempted. -/
structure ProxyResult where
  resp : GatewayResponse
  breakers : Breakers
  downstreamCalled : Bool

/-- Source `APIGateway.proxyRequest(serviceName, req, res)`: consult the breaker,
resolve via the registry, attempt the single downstream call, and map the
outcome back (pass `status < 500` through verbatim and reset the breaker;
forward a `>= 500` response from `error.response`; turn `ECONNREFUSED` /
`ETIMEDOUT` into a 503; everything else into a 500 — all failure branches
first call `recordFailure`). -/
def proxyRequest (m : Breakers) (reg : Registry) (serviceName : String)
    (now : Nat) (outcome : DownstreamOutcome) : ProxyResult :=
  let q := isCircuitOpen m serviceName now
  if q.1 then
    ⟨⟨503, .circuitOpenBody
        ("Serviço " ++ serviceName ++ " temporariamente indisponível")⟩,
      q.2, false⟩
  else
    match discover reg serviceName with
    | none =>
        ⟨⟨503, .notFoundBody ("Serviço " ++ serviceName ++ " não encontrado")
            serviceName (registryNames reg)⟩, q.2, false⟩
    | some _url =>
        match outcome with
        | .response status data =>
            if status < 500 then
              ⟨⟨status, .passthroughBody data⟩,
                resetCircuitBreaker q.2 serviceName, true⟩
            else
              ⟨⟨status, .passthroughBody data⟩,
                recordFailure q.2 serviceName now, true⟩
        | .connRefused =>
            ⟨⟨503, .unavailableBody ("Serviço " ++ serviceName ++ " indisponível")
                serviceName "ECONNREFUSED"⟩,
              recordFailure q.2 serviceName now, true⟩
        | .timedOut =>
            ⟨⟨503, .unavailableBody ("Serviço " ++ serviceName ++ " indisponível")
                serviceName "ETIMEDOUT"⟩,
              recordFailure q.2 serviceName now, true⟩
        | .otherFailure msg =>
            ⟨⟨500, .internalBody msg⟩, recordFailure q.2 serviceName now, true⟩

/-- C4: with the circuit open for `S` the gateway answers 503 with the
circuit-open body, attempts no downstream call and touches no state beyond the
`isOpen` query; with the circuit closed but `S` unresolved in the registry it
answers 503 with the service-not-found body — a different body from the
circuit-open one — again without any downstream call. -/
theorem C4_short_circuit_open_and_not_found
    (m : Breakers) (reg : Registry) (S : String) (now : Nat)
    (outcome : DownstreamOutcome) :
    ((isCircuitOpen m S now).1 = true →
      (proxyRequest m reg S now outcome).resp.status = 503 ∧
      (proxyRequest m reg S now outcome).downstreamCalled = false ∧
      (proxyRequest m reg S now outcome).breakers = (isCircuitOpen m S now).2 ∧
      (proxyRequest m reg S now outcome).resp.body =
        .circuitOpenBody ("Serviço " ++ S ++ " temporariamente indisponível")) ∧
    ((isCircuitOpen m S now).1 = false → discover reg S = none →
      (proxyRequest m reg S now outcome).resp.status = 503 ∧
      (proxyRequest m reg S now outcome).downstreamCalled = false ∧
      (proxyRequest m reg S now outcome).resp.body =
        .notFoundBody ("Serviço " ++ S ++ " não encontrado") S
          (registryNames reg) ∧
      (proxyRequest m reg S now outcome).resp.body ≠
        .circuitOpenBody ("Serviço " ++ S ++ " temporariamente indisponível")) := by
  constructor
  · intro hOpen
    simp [proxyRequest, hOpen]
  · intro hClosed hNF
    simp [proxyRequest, hClosed, hNF]

theorem C4_witness :
    ((isCircuitOpen (Breakers.empty.set "list-service" ⟨3, true, 0⟩)
        "list-service" 1).1 = true ∧
      (proxyRequest (Breakers.empty.set "list-service" ⟨3, true, 0⟩)
        [("list-service", "http://localhost:3002")] "list-service" 1
        (.response 200 "ok")).resp.status = 503 ∧
      (proxyRequest (Breakers.empty.set "list-service" ⟨3, true, 0⟩)
        [("list-service", "http://localhost:3002")] "list-service" 1
        (.response 200 "ok")).downstreamCalled = false) ∧
    ((isCircuitOpen Breakers.empty "list-service" 1).1 = false ∧
      discover [] "list-service" = none ∧
      (proxyRequest Breakers.empty [] "list-service" 1
        (.response 200 "ok")).resp.status = 503 ∧
      (proxyRequest Breakers.empty [] "list-service" 1
        (.response 200 "ok")).resp.body ≠
        .circuitOpenBody "Serviço list-service temporariamente indisponível") := by
  have h1 := (C4_short_circuit_open_and_not_found
    (Breakers.empty.set "list-service" ⟨3, true, 0⟩)
    [("list-service", "http://localhost:3002")] "list-service" 1
    (.response 200 "ok")).1 (by decide)
  have h2 := (C4_short_circuit_open_and_not_found
    Breakers.empty [] "list-service" 1 (.response 200 "ok")).2
    (by decide) (by decide)
  exact ⟨⟨by decide, h1.1, h1.2.1⟩, by decide, by decide, h2.1, h2.2.2.2⟩

/-- C5: with the circuit closed and the service resolved, a downstream
connection refusal and likewise an elapsed 10s timeout both make the gateway
answer 503 and record a failure on `S`'s breaker. -/
theorem C5_connectivity_failure_503_and_recorded
    (m : Breakers) (reg : Registry) (S url : String) (now : Nat)
    (hClosed : (isCircuitOpen m S now).1 = false)
    (hFound : discover reg S = some url) :
    ((proxyRequest m reg S now .connRefused).resp.status = 503 ∧
      (proxyRequest m reg S now .connRefused).breakers =
        recordFailure (isCircuitOpen m S now).2 S now) ∧
    ((proxyRequest m reg S now .timedOut).resp.status = 503 ∧
      (proxyRequest m reg S now .timedOut).breakers =
        recordFailure (isCircuitOpen m S now).2 S now) := by
  refine ⟨⟨?_, ?_⟩, ?_, ?_⟩ <;> simp [proxyRequest, hClosed, hFound]

theorem C5_witness :
    (isCircuitOpen Breakers.empty "item-service" 0).1 = false ∧
    discover [("item-service", "http://localhost:3003")] "item-service" =
      some "http://localhost:3003" ∧
    (proxyRequest Breakers.empty [("item-service", "http://localhost:3003")]
      "item-service" 0 .connRefused).resp.status = 503 ∧
    (proxyRequest Breakers.empty [("item-service", "http://localhost:3003")]
      "item-service" 0 .timedOut).resp.status = 503 := by
  have h := C5_connectivity_failure_503_and_recorded Breakers.empty
    [("item-service", "http://localhost:3003")] "item-service"
    "http://localhost:3003" 0 (by decide) (by decide)
  exact ⟨by decide, by decide, h.1.1, h.2.1⟩

/-- C6: with the circuit closed and the service resolved, a downstream
response of status strictly under 500 (404 included) is forwarded to the
caller with that same status and its body unchanged, not converted into a
gateway-level error. -/
theorem C6_sub500_passes_through
    (m : Breakers) (reg : Registry) (S url : String) (now : Nat)
    (status : Nat) (data : String)
    (hClosed : (isCircuitOpen m S now).1 = false)
    (hFound : discover reg S = some url)
    (hLt : status < 500) :
    (proxyRequest m reg S now (.response status data)).resp.status = status ∧
    (proxyRequest m reg S now (.response status data)).resp.body =
      .passthroughBody data := by
  constructor <;> simp [proxyRequest, hClosed, hFound, hLt]

theorem C6_witness :
    (isCircuitOpen Breakers.empty "item-service" 0).1 = false ∧
    discover [("item-service", "http://localhost:3003")] "item-service" =
      some "http://localhost:3003" ∧ (404 : Nat) < 500 ∧
    (proxyRequest Breakers.empty [("item-service", "http://localhost:3003")]
      "item-service" 0 (.response 404 "Item não encontrado")).resp.status = 404 ∧
    (proxyRequest Breakers.empty [("item-service", "http://localhost:3003")]
      "item-service" 0 (.response 404 "Item não encontrado")).resp.body =
      .passthroughBody "Item não encontrado" := by
  have h := C6_sub500_passes_through Breakers.empty
    [("item-service", "http://localhost:3003")] "item-service"
    "http://localhost:3003" 0 404 "Item não encontrado"
    (by decide) (by decide) (by decide)
  exact ⟨by decide, by decide, by decide, h.1, h.2⟩

/-- C10 (implicit): any downstream response under 500 — a 404 included —
counts as a success for the breaker: after the proxy forwards it, `S`'s
failure count is zero and its open flag cleared, so connectivity failures
followed by any 4xx response return the breaker to the closed zero-failure
state. -/
theorem C10_sub500_resets_breaker
    (m : Breakers) (reg : Registry) (S url : String) (now : Nat)
    (status : Nat) (data : String)
    (hClosed : (isCircuitOpen m S now).1 = false)
    (hFound : discover reg S = some url)
    (hLt : status < 500) :
    (((proxyRequest m reg S now (.response status data)).breakers).getD0
        S).failures = 0 ∧
    (((proxyRequest m reg S now (.response status data)).breakers).getD0
        S).isOpen = false := by
  have hb : (proxyRequest m reg S now (.response status data)).breakers =
      resetCircuitBreaker (isCircuitOpen m S now).2 S := by
    simp [proxyRequest, hClosed, hFound, hLt]
  rw [hb]
  exact resetCircuitBreaker_zeroes _ S

theorem C10_witness :
    (isCircuitOpen ((proxyRequest ((proxyRequest Breakers.empty
        [("item-service", "http://localhost:3003")] "item-service" 0
        .connRefused).breakers) [("item-service", "http://localhost:3003")]
        "item-service" 1 .connRefused).breakers)
        "item-service" 2).1 = false ∧
    ((proxyRequest ((proxyRequest ((proxyRequest Breakers.empty
        [("item-service", "http://localhost:3003")] "item-service" 0
        .connRefused).breakers) [("item-service", "http://localhost:3003")]
        "item-service" 1 .connRefused).breakers)
        [("item-service", "http://localhost:3003")] "item-service" 2
        (.response 404 "nf")).breakers.getD0 "item-service").failures = 0 ∧
    ((proxyRequest ((proxyRequest ((proxyRequest Breakers.empty
        [("item-service", "http://localhost:3003")] "item-service" 0
        .connRefused).breakers) [("item-service", "http://localhost:3003")]
        "item-service" 1 .connRefused).breakers)
        [("item-service", "http://localhost:3003")] "item-service" 2
        (.response 404 "nf")).breakers.getD0 "item-service").isOpen = false := by
  have h := C10_sub500_resets_breaker ((proxyRequest ((proxyRequest
    Breakers.empty [("item-service", "http://localhost:3003")] "item-service" 0
    .connRefused).breakers) [("item-service", "http://localhost:3003")]
    "item-service" 1 .connRefused).breakers)
    [("item-service", "http://localhost:3003")] "item-service"
    "http://localhost:3003" 2 404 "nf" (by decide) (by decide) (by decide)
  exact ⟨by decide, h.1, h.2⟩

/-! ## Event pipeline: shared `rabbitmq` module and the checkout endpoint -/

/-- Connection/channel state of the shared `rabbitmq` module: whether the
lazily created channel exists (`channel !== null`), and whether the broker is
currently reachable (so that `amqp.connect(RABBIT_URL)` would succeed). -/
structure BrokerState where
  hasChannel : Bool
  reachable : Bool
  deriving DecidableEq, Repr

/-- Source `rabbitmq.connect()`: reuse an existing channel, otherwise connect and
create one; on failure the module keeps `channel = null` and rethrows. -/
def connect (st : BrokerState) : Except String BrokerState :=
  if st.hasChannel then .ok st
  else if st.reachable then .ok { st with hasChannel := true }
  else .error "failed to connect"

/-- The try-block of `rabbitmq.publish`: ensure a channel (possibly throwing),
throw if still absent, otherwise publish and yield `true`. -/
def publishTry (st : BrokerState) : Except String (Bool × BrokerState) := do
  let st1 ← if st.hasChannel then pure st else connect st
  if st1.hasChannel then
    pure (true, st1)
  else
    throw "No RabbitMQ channel available"

/-- Source `rabbitmq.publish(exchange, routingKey, message)`: the try-block wrapped
in the catch that logs and returns `false` — the call itself never throws,
it returns a success/failure boolean. -/
def publish (st : BrokerState) : Bool × BrokerState :=
  match publishTry st with
  | .ok r => r
  | .error _ => (false, st)

/-- One entry of a list's `items` array (`server.js` list schema); prices and
quantities are modelled as exact rationals. -/
structure ListItem where
  itemId : String
  itemName : String
  quantity : ℚ
  unit : String
  estimatedPrice : ℚ
  purchased : Bool
  deriving DecidableEq, Repr

/-- The `summary` object stored on a list. -/
structure ListSummary where
  totalItems : Nat
  purchasedItems : Nat
  estimatedTotal : ℚ
  deriving DecidableEq, Repr

/-- A stored shopping list (the fields the checkout path reads). -/
structure ShoppingList where
  id : String
  userId : String
  items : List ListItem
  summary : ListSummary
  status : String
  deriving DecidableEq, Repr

/-- Source `calculateListSummary(items)` from `server.js`: item count, purchased
count, and `reduce((total, item) => total + item.estimatedPrice *
item.quantity, 0)`. -/
def calculateListSummary (items : List ListItem) : ListSummary :=
  { totalItems := items.length
    purchasedItems := (items.filter (fun item => item.purchased)).length
    estimatedTotal :=
      items.foldl (fun total item => total + item.estimatedPrice * item.quantity) 0 }

/-- Source `updateListSummary(listId)` from `server.js`, with the black-box `listDb`
abstracted to the list record itself: store the recomputed summary. -/
def updateListSummary (l : ShoppingList) : ShoppingList :=
  { l with summary := calculateListSummary l.items }

/-- Source `calcTotalFromItems(items)` from `consumer_analytics.js`:
`reduce((sum, it) => sum + ((it.estimatedPrice || 0) * (it.quantity || 0)), 0)`
(the `|| 0` defaults collapse on the typed item record, where both fields are
always present; `x || 0 = x` also at `x = 0`). -/
def calcTotalFromItems (items : List ListItem) : ℚ :=
  items.foldl (fun sum it => sum + it.estimatedPrice * it.quantity) 0

/-- The event object built by the checkout handler (`id`, `userId`, `items`,
`summary`, `timestamp`). -/
structure CheckoutEvent where
  id : String
  userId : String
  items : List ListItem
  summary : ListSummary
  timestamp : String
  deriving DecidableEq, Repr

/-- Observable steps of the checkout handler, in source order. -/
inductive CheckoutStep where
  | dbUpdate (listId : String)
  | httpRespond (status : Nat)
  | publishCall (exchange : String) (routingKey : String)
  deriving DecidableEq, Repr

/-- Everything one `POST /lists/:id/checkout` invocation produces. -/
structure CheckoutResult where
  respStatus : Nat
  respListId : String
  event : CheckoutEvent
  publishOk : Bool
  broker : BrokerState
  trace : List CheckoutStep

/-- The `POST /lists/:id/checkout` handler body (after `validateUserId` and
`checkListOwnership` succeeded, so the list exists and belongs to the caller;
the black-box `listDb.update` is modelled as the in-place status change):
mark the list completed, answer `202 Accepted`, then build the event from the
updated record and call `rabbit.publish` in the background.  `trace` records
the side effects in statement order. -/
def checkoutHandler (l : ShoppingList) (broker : BrokerState) (ts : String) :
    CheckoutResult :=
  let updated := { l with status := "completed" }
  let event : CheckoutEvent :=
    ⟨updated.id, updated.userId, updated.items, updated.summary, ts⟩
  let pr := publish broker
  { respStatus := 202
    respListId := l.id
    event := event
    publishOk := pr.1
    broker := pr.2
    trace := [.dbUpdate l.id, .httpRespond 202,
              .publishCall "shopping_events" "list.checkout.completed"] }

/-- C7: the checkout handler answers 202 and its trace places the HTTP
response strictly before the publish call; the publish call returns a boolean
success/failure indication — when its try-block throws (broker unreachable,
no channel) the caught result is `false` — so no broker failure can block or
change the already-sent 202 response, which is the same for every broker
state. -/
theorem C7_checkout_responds_before_publish
    (l : ShoppingList) (broker : BrokerState) (ts : String) :
    (checkoutHandler l broker ts).respStatus = 202 ∧
    (checkoutHandler l broker ts).trace =
      [.dbUpdate l.id, .httpRespond 202,
       .publishCall "shopping_events" "list.checkout.completed"] ∧
    (∃ pre mid post, (checkoutHandler l broker ts).trace =
      pre ++ CheckoutStep.httpRespond 202 :: mid ++
        CheckoutStep.publishCall "shopping_events" "list.checkout.completed"
          :: post) ∧
    (∀ e, publishTry broker = .error e →
      (checkoutHandler l broker ts).publishOk = false) ∧
    (∀ broker' : BrokerState,
      (checkoutHandler l broker ts).respStatus =
        (checkoutHandler l broker' ts).respStatus) := by
  refine ⟨rfl, rfl, ⟨[.dbUpdate l.id], [], [], rfl⟩, ?_, fun _ => rfl⟩
  intro e he
  simp [checkoutHandler, publish, he]

/-- Sample list used by the concrete witnesses: items priced 4.5 (qty 2) and
6.2 (qty 1), with the stored summary produced by `updateListSummary`. -/
def sampleList : ShoppingList :=
  updateListSummary
    { id := "list-1"
      userId := "user-1"
      items := [⟨"item-1", "arroz", 2, "kg", (9 : ℚ)/2, false⟩,
                ⟨"item-2", "café", 1, "kg", (31 : ℚ)/5, false⟩]
      summary := ⟨0, 0, 0⟩
      status := "active" }

theorem C7_witness :
    publishTry ⟨false, false⟩ = .error "failed to connect" ∧
    (checkoutHandler sampleList ⟨false, false⟩ "t0").respStatus = 202 ∧
    (checkoutHandler sampleList ⟨false, false⟩ "t0").publishOk = false ∧
    (∃ pre mid post, (checkoutHandler sampleList ⟨false, false⟩ "t0").trace =
      pre ++ CheckoutStep.httpRespond 202 :: mid ++
        CheckoutStep.publishCall "shopping_events" "list.checkout.completed"
          :: post) := by
  have h := C7_checkout_responds_before_publish sampleList ⟨false, false⟩ "t0"
  exact ⟨rfl, h.1, h.2.2.2.1 "failed to connect" rfl, h.2.2.1⟩

theorem foldl_add_eq_sum (f : ListItem → ℚ) (l : List ListItem) (a : ℚ) :
    l.foldl (fun s i => s + f i) a = a + (l.map f).sum := by
  induction l generalizing a with
  | nil => simp
  | cons x xs ih => simp [List.foldl, ih, add_assoc]

/-- C8: when the stored summary was produced by the summary-update path, the
emitted checkout event's `summary.estimatedTotal` equals the sum over the
event's item snapshot of `estimatedPrice × quantity`, and the analytics
consumer's independent recomputation (`calcTotalFromItems`) over that snapshot
yields the same value. -/
theorem C8_checkout_total_is_item_sum
    (l : ShoppingList) (broker : BrokerState) (ts : String)
    (hSummary : l.summary = calculateListSummary l.items) :
    (checkoutHandler l broker ts).event.summary.estimatedTotal =
      ((checkoutHandler l broker ts).event.items.map
        (fun it => it.estimatedPrice * it.quantity)).sum ∧
    calcTotalFromItems (checkoutHandler l broker ts).event.items =
      (checkoutHandler l broker ts).event.summary.estimatedTotal := by
  have hev : (checkoutHandler l broker ts).event.items = l.items := rfl
  have hsum : (checkoutHandler l broker ts).event.summary = l.summary := rfl
  rw [hev, hsum, hSummary]
  constructor
  · show (calculateListSummary l.items).estimatedTotal = _
    unfold calculateListSummary
    rw [foldl_add_eq_sum]
    simp
  · show calcTotalFromItems l.items = (calculateListSummary l.items).estimatedTotal
    rfl

theorem C8_witness :
    sampleList.summary = calculateListSummary sampleList.items ∧
    (checkoutHandler sampleList ⟨true, true⟩ "t0").event.summary.estimatedTotal =
      (76 : ℚ)/5 ∧
    calcTotalFromItems (checkoutHandler sampleList ⟨true, true⟩ "t0").event.items =
      (76 : ℚ)/5 ∧
    ((checkoutHandler sampleList ⟨true, true⟩ "t0").event.items.map
      (fun it => it.estimatedPrice * it.quantity)).sum = (76 : ℚ)/5 := by
  have h := C8_checkout_total_is_item_sum sampleList ⟨true, true⟩ "t0" rfl
  have htot : (checkoutHandler sampleList ⟨true, true⟩
      "t0").event.summary.estimatedTotal = (76 : ℚ)/5 := by
    show (calculateListSummary sampleList.items).estimatedTotal = (76 : ℚ)/5
    norm_num [calculateListSummary, sampleList, updateListSummary]
  refine ⟨rfl, htot, ?_, ?_⟩
  · rw [h.2, htot]
  · rw [← h.1, htot]

/-! ## Worker consume loops (`consumer_analytics.js`, `consumer_notification.js`) -/

/-- Disposition of one delivered message: `ch.ack(msg)` or
`ch.nack(msg, false, requeue)` (first `false` = this message only). -/
inductive MsgAction where
  | ack
  | nack (requeue : Bool)
  deriving DecidableEq, Repr

/-- The delivery callback shared in shape by both workers: try to
`JSON.parse` the body (abstracted as `parse`, a language built-in) and run
the worker's processing (`process`; in `consumer_notification.js` the email
lookup is guarded by an inner try/catch with a fallback, in
`consumer_analytics.js` the total is recomputed); `ack` on success, and on
any exception `ch.nack(msg, false, false)` — reject without requeueing. -/
def consumeOne {α : Type} (parse : String → Option α)
    (process : α → Except String Unit) (body : String) : MsgAction :=
  match parse body with
  | none => .nack false
  | some p =>
    match process p with
    | .ok _ => .ack
    | .error _ => .nack false

/-- The long-running consume loop: every delivered body is handled by the
callback independently; no outcome aborts the loop. -/
def consumeLoop {α : Type} (parse : String → Option α)
    (process : α → Except String Unit) (bodies : List String) : List MsgAction :=
  bodies.map (consumeOne parse process)

/-- C9: a message whose body does not parse as JSON is negatively
acknowledged with requeue `false` (discarded, never redelivered), the loop
goes on to handle every subsequent message (one action per delivery), and a
message whose processing throws is discarded the same way. -/
theorem C9_bad_message_discarded_loop_continues
    {α : Type} (parse : String → Option α) (process : α → Except String Unit)
    (body : String) (rest : List String)
    (hBad : parse body = none) :
    consumeOne parse process body = .nack false ∧
    consumeLoop parse process (body :: rest) =
      .nack false :: consumeLoop parse process rest ∧
    (consumeLoop parse process (body :: rest)).length = rest.length + 1 ∧
    (∀ b p e, parse b = some p → process p = .error e →
      consumeOne parse process b = .nack false) := by
  have h1 : consumeOne parse process body = .nack false := by
    simp [consumeOne, hBad]
  refine ⟨h1, ?_, ?_, ?_⟩
  · simp [consumeLoop, h1]
  · simp [consumeLoop]
  · intro b p e hp hpr
    simp [consumeOne, hp, hpr]

theorem C9_witness :
    (fun s => if s = "good" then some () else none) "bad?" = none ∧
    consumeOne (fun s => if s = "good" then some () else none)
      (fun _ => .ok ()) "bad?" = .nack false ∧
    consumeLoop (fun s => if s = "good" then some () else none)
      (fun _ => .ok ()) ["bad?", "good"] = [.nack false, .ack] := by
  have h := C9_bad_message_discarded_loop_continues
    (fun s => if s = "good" then some () else none)
    (fun _ => Except.ok ()) "bad?" ["good"] (by decide)
  refine ⟨by decide, h.1, ?_⟩
  rw [h.2.1]
  decide

end Shopping
